import Mathlib

/-
Shallow embedding of jaydhales/rust-state-machine.

Source layout:
  src/balances.rs  — balances pallet: set_balance, balance, transfer (checked arithmetic)
  src/system.rs    — system pallet: block_number, inc_block_number, inc_nonce
  src/main.rs      — concrete Runtime, dispatch, execute_block, type config
Missing from src/ (referenced by main.rs, modelled from the spec where noted):
  support.rs (Extrinsic/Header/Block data shapes, DispatchResult),
  proof_of_existence.rs, and the balances Call enum with its dispatch impl.

Concrete configuration (main.rs `mod types`):
  AccountId = String, Balance = u128, BlockNumber = u32, Nonce = u32.
Balances use checked u128 arithmetic, modelled as Nat with an explicit 2^128
bound.  BlockNumber/Nonce increments are unchecked `+` in the source (a panic
on overflow in debug builds; the spec leaves overflow behavior an open
question), so they are modelled as exact Nat increments.
BTreeMap is modelled as a function into Option, absence of an entry being
`none`; insert overwrites pointwise.
-/

namespace StateMachine

abbrev AccountId := String
abbrev Content := String
abbrev ErrorMessage := String

/-- Upper bound of u128: `checked_add` on u128 overflows iff the exact sum
reaches this bound. -/
def u128Bound : Nat := 2 ^ 128

/-- u128 checked subtraction: `a.checked_sub(b)` is `none` iff `b > a`. -/
def checked_sub (a b : Nat) : Option Nat :=
  if b ≤ a then some (a - b) else none

/-- u128 checked addition: `a.checked_add(b)` is `none` iff the exact sum
overflows u128. -/
def checked_add (a b : Nat) : Option Nat :=
  if a + b < u128Bound then some (a + b) else none

/-- `balances::BalanceError` from src/balances.rs. -/
inductive BalanceError where
  | InsufficientBalance
  | BalanceOverflow (who : AccountId)
deriving DecidableEq, Repr

/-- `balances::Pallet` from src/balances.rs: a map from account to balance. -/
structure BalancesPallet where
  balances : AccountId → Option Nat

/-- `balances::Pallet::new` — empty map. -/
def BalancesPallet.new : BalancesPallet := ⟨fun _ => none⟩

/-- `balances::Pallet::set_balance` — unconditional insert (overwrite). -/
def BalancesPallet.set_balance (p : BalancesPallet) (who : AccountId) (amount : Nat) :
    BalancesPallet :=
  ⟨fun k => if k = who then some amount else p.balances k⟩

/-- `balances::Pallet::balance` — read, defaulting to zero for an absent
entry; takes the pallet immutably (no entry is created). -/
def BalancesPallet.balance (p : BalancesPallet) (who : AccountId) : Nat :=
  (p.balances who).getD 0

/-- `balances::Pallet::transfer` from src/balances.rs.  Reads both balances,
then checked subtraction on the caller side (early return with
`InsufficientBalance`), then checked addition on the recipient side (early
return with `BalanceOverflow(to)`), then writes caller's balance followed by
recipient's balance.  The pair's first component is the pallet state after
the call (unchanged on the early returns, exactly as the `?` operator leaves
`&mut self` before any mutation). -/
def BalancesPallet.transfer (p : BalancesPallet) (caller toA : AccountId) (amount : Nat) :
    BalancesPallet × Except BalanceError Unit :=
  let caller_balance := p.balance caller
  let to_balance := p.balance toA
  match checked_sub caller_balance amount with
  | none => (p, .error .InsufficientBalance)
  | some cb =>
    match checked_add to_balance amount with
    | none => (p, .error (.BalanceOverflow toA))
    | some tb => ((p.set_balance caller cb).set_balance toA tb, .ok ())

/-- `system::Pallet` from src/system.rs: the current block number and a map
from account to nonce.  The auto-generated projection `block_number` is the
source's read-only accessor `block_number()`; the source exposes no
corresponding accessor for `nonce`. -/
structure SystemPallet where
  block_number : Nat
  nonce : AccountId → Option Nat

/-- `system::Pallet::new` — block number zero, empty nonce map. -/
def SystemPallet.new : SystemPallet := ⟨0, fun _ => none⟩

/-- `system::Pallet::inc_block_number` — unconditional unchecked increment. -/
def SystemPallet.inc_block_number (s : SystemPallet) : SystemPallet :=
  { s with block_number := s.block_number + 1 }

/-- `system::Pallet::inc_nonce` — read the caller's nonce (zero when the
entry is absent), add one, store the result. -/
def SystemPallet.inc_nonce (s : SystemPallet) (caller : AccountId) : SystemPallet :=
  let n := (s.nonce caller).getD 0
  { s with nonce := fun k => if k = caller then some (n + 1) else s.nonce k }

/-- Modelled from the spec: src/ lacks proof_of_existence.rs, whose `Call`
enum main.rs references.  Per spec §4.3 the module exposes the single
command `CreateClaim { claim }`. -/
inductive ProofOfExistenceCall where
  | CreateClaim (claim : Content)
deriving DecidableEq, Repr

/-- Modelled from the spec: the proof-of-existence pallet (missing from
src/) tracks a claim → owner mapping (spec §2, §4.3). -/
structure ProofOfExistencePallet where
  claims : Content → Option AccountId

/-- Modelled from the spec: fresh claim registry with empty state (§6
Construction). -/
def ProofOfExistencePallet.new : ProofOfExistencePallet := ⟨fun _ => none⟩

/-- Modelled from the spec: proof_of_existence.rs is missing from src/.
Per spec §4.3, `CreateClaim` "must fail if the claim already exists (owner
already recorded) and otherwise records `caller` as owner"; the failure is
the recoverable claim-already-exists error (§7). -/
def ProofOfExistencePallet.dispatch (p : ProofOfExistencePallet) (caller : AccountId) :
    ProofOfExistenceCall → ProofOfExistencePallet × Except ErrorMessage Unit
  | .CreateClaim claim =>
    match p.claims claim with
    | some _ => (p, .error "claim already exists")
    | none => (⟨fun c => if c = claim then some caller else p.claims c⟩, .ok ())

/-- Modelled from the spec: src/balances.rs lacks the `Call` enum that
main.rs references as `balances::Call::Transfer { to, amount }`.  Per spec
§4.2 the one dispatchable balances command is `Transfer { to, amount }`,
with the caller supplied implicitly by the runtime's dispatch step. -/
inductive BalancesCall where
  | Transfer (toA : AccountId) (amount : Nat)
deriving DecidableEq, Repr

/-- Modelled from the spec: conversion of the balances module errors to the
human-readable dispatch error message (§7: module-level results are passed
through as messages; the exact wording is not in src/). -/
def balanceErrorToMessage : BalanceError → ErrorMessage
  | .InsufficientBalance => "Insufficient balance"
  | .BalanceOverflow _ => "Balance overflow"

/-- Modelled from the spec: src/balances.rs lacks the `Dispatch` impl that
main.rs calls as `self.balances.dispatch(caller, call)`.  Per spec §4.2 the
`Transfer` command invokes `transfer` with the runtime-supplied caller and
the payload's recipient and amount, returning the module's result. -/
def BalancesPallet.dispatch (p : BalancesPallet) (caller : AccountId) :
    BalancesCall → BalancesPallet × Except ErrorMessage Unit
  | .Transfer toA amount =>
    match p.transfer caller toA amount with
    | (p2, .ok ()) => (p2, .ok ())
    | (p2, .error e) => (p2, .error (balanceErrorToMessage e))

/-- `RuntimeCall` from src/main.rs: one variant per module. -/
inductive RuntimeCall where
  | Balances (call : BalancesCall)
  | ProofOfExistence (call : ProofOfExistenceCall)
deriving DecidableEq, Repr

/-- `Runtime` from src/main.rs: one instance of each pallet. -/
structure Runtime where
  system : SystemPallet
  balances : BalancesPallet
  proof_of_existence : ProofOfExistencePallet

/-- `Runtime::new` from src/main.rs — a new instance of each pallet. -/
def Runtime.new : Runtime :=
  ⟨SystemPallet.new, BalancesPallet.new, ProofOfExistencePallet.new⟩

/-- Modelled from the spec: `support::Extrinsic` (support.rs is missing from
src/) — `{ caller: AccountId, call: Command }` (spec §3). -/
structure Extrinsic where
  caller : AccountId
  call : RuntimeCall
deriving DecidableEq, Repr

/-- Modelled from the spec: `support::Header` — `{ block_number }` (§3). -/
structure Header where
  block_number : Nat
deriving DecidableEq, Repr

/-- Modelled from the spec: `support::Block` — a header plus an ordered
sequence of extrinsics (§3). -/
structure Block where
  header : Header
  extrinsics : List Extrinsic
deriving DecidableEq, Repr

/-- `impl support::Dispatch for Runtime` from src/main.rs: match on the
command's module tag and forward to that module's dispatch, passing the
caller through unchanged; the module's updated state replaces that module's
slot and the module's result is returned as-is. -/
def Runtime.dispatch (rt : Runtime) (caller : AccountId) :
    RuntimeCall → Runtime × Except ErrorMessage Unit
  | .Balances call =>
    match rt.balances.dispatch caller call with
    | (b, r) => ({ rt with balances := b }, r)
  | .ProofOfExistence call =>
    match rt.proof_of_existence.dispatch caller call with
    | (p, r) => ({ rt with proof_of_existence := p }, r)

/-- The body of the per-extrinsic loop in `Runtime::execute_block`
(src/main.rs): increment the caller's nonce, then dispatch the embedded
call, discarding its result (the `Err` side is only printed). -/
def Runtime.applyExtrinsic (rt : Runtime) (ext : Extrinsic) : Runtime :=
  let rt1 := { rt with system := rt.system.inc_nonce ext.caller }
  (rt1.dispatch ext.caller ext.call).1

/-- `Runtime::execute_block` from src/main.rs: increment the block number,
then compare the block's declared number against the incremented counter,
returning a fatal error (with the counter already incremented) on mismatch;
otherwise run the per-extrinsic loop over all extrinsics in order and return
ok. -/
def Runtime.execute_block (rt : Runtime) (block : Block) : Runtime × Except ErrorMessage Unit :=
  let rt1 := { rt with system := rt.system.inc_block_number }
  if block.header.block_number ≠ rt1.system.block_number then
    (rt1, .error "block number does not match what is expected")
  else
    (block.extrinsics.foldl Runtime.applyExtrinsic rt1, .ok ())

/-- Sequential execution of a list of blocks, each through `execute_block`
(as main.rs does for its two demo blocks). -/
def Runtime.execute_blocks (rt : Runtime) (bs : List Block) : Runtime :=
  bs.foldl (fun r b => (r.execute_block b).1) rt

/-- A block list is well sequenced from counter `n` when each successive
block declares the next block number — the condition under which
`execute_block` accepts every block of the list. -/
def wellSequenced : Nat → List Block → Bool
  | _, [] => true
  | n, b :: bs => (b.header.block_number == n + 1) && wellSequenced (n + 1) bs

/-- How many extrinsics of a block are originated by `who`. -/
def originatedInBlock (who : AccountId) (b : Block) : Nat :=
  b.extrinsics.countP (fun e => e.caller == who)

/-- How many extrinsics `who` originates across a list of blocks. -/
def originatedCount (who : AccountId) : List Block → Nat
  | [] => 0
  | b :: bs => originatedInBlock who b + originatedCount who bs

/-- Fixture: the demo's seeded ledger — alice holds 100 (main.rs). -/
def alicePallet : BalancesPallet := BalancesPallet.new.set_balance "alice" 100

/-- Fixture: a ledger where bob already holds the maximal u128 value. -/
def fullBobPallet : BalancesPallet :=
  (BalancesPallet.new.set_balance "alice" 100).set_balance "bob" (u128Bound - 1)

/-- Fixture: the demo runtime after seeding alice with 100 (main.rs). -/
def demoRuntime : Runtime := { Runtime.new with balances := alicePallet }

/-- Fixture: the demo's first block — two transfers from alice (main.rs). -/
def demoBlock1 : Block :=
  ⟨⟨1⟩, [⟨"alice", .Balances (.Transfer "bob" 30)⟩,
         ⟨"alice", .Balances (.Transfer "charlie" 30)⟩]⟩

/-- Fixture: a block declaring number 5 against a fresh runtime. -/
def badBlock : Block := ⟨⟨5⟩, [⟨"alice", .Balances (.Transfer "bob" 30)⟩]⟩

/-- Fixture: a block whose first extrinsic fails (insufficient balance) and
whose second succeeds. -/
def mixedBlock : Block :=
  ⟨⟨1⟩, [⟨"alice", .Balances (.Transfer "bob" 200)⟩,
         ⟨"alice", .Balances (.Transfer "bob" 30)⟩]⟩

theorem balance_set_self (p : BalancesPallet) (who : AccountId) (amt : Nat) :
    (p.set_balance who amt).balance who = amt := by
  simp [BalancesPallet.set_balance, BalancesPallet.balance]

theorem balances_set_other (p : BalancesPallet) (who : AccountId) (amt : Nat)
    (w : AccountId) (h : w ≠ who) :
    (p.set_balance who amt).balances w = p.balances w := by
  simp [BalancesPallet.set_balance, h]

theorem balance_set_other (p : BalancesPallet) (who : AccountId) (amt : Nat)
    (w : AccountId) (h : w ≠ who) :
    (p.set_balance who amt).balance w = p.balance w := by
  simp [BalancesPallet.balance, balances_set_other p who amt w h]

theorem transfer_eq (p : BalancesPallet) (caller toA : AccountId) (amount : Nat) :
    p.transfer caller toA amount =
      if amount ≤ p.balance caller then
        if p.balance toA + amount < u128Bound then
          ((p.set_balance caller (p.balance caller - amount)).set_balance toA
              (p.balance toA + amount), .ok ())
        else (p, .error (.BalanceOverflow toA))
      else (p, .error .InsufficientBalance) := by
  simp only [BalancesPallet.transfer, checked_sub, checked_add]
  split_ifs <;> rfl

/-- C1 counterexample: with alice holding 100, the self-transfer
`transfer(alice, alice, 30)` succeeds, yet the claimed conservation equation
`balance(A)_after + balance(B)_after = balance(A)_before + balance(B)_before`
fails at A = B = alice (130 + 130 ≠ 100 + 100): both balances are read
before either write, so the credit overwrites the debit. -/
theorem transfer_conservation_cex :
    (alicePallet.transfer "alice" "alice" 30).2 = .ok ()
    ∧ (alicePallet.transfer "alice" "alice" 30).1.balance "alice"
          + (alicePallet.transfer "alice" "alice" 30).1.balance "alice"
        ≠ alicePallet.balance "alice" + alicePallet.balance "alice" := by
  exact ⟨rfl, by decide⟩

/-- C1 (amended): for distinct accounts A ≠ B, a successful
`transfer(A, B, X)` conserves the two balances' sum and applies the exact
debit and credit: `balance(A)_after = balance(A)_before - X` and
`balance(B)_after = balance(B)_before + X`.  (The unamended claim also
asserted the sum equation for A = B, which the code violates.) -/
theorem transfer_conservation (p : BalancesPallet) (caller toA : AccountId) (amount : Nat)
    (hne : caller ≠ toA)
    (hok : (p.transfer caller toA amount).2 = .ok ()) :
    (p.transfer caller toA amount).1.balance caller
        + (p.transfer caller toA amount).1.balance toA
      = p.balance caller + p.balance toA
    ∧ (p.transfer caller toA amount).1.balance caller = p.balance caller - amount
    ∧ (p.transfer caller toA amount).1.balance toA = p.balance toA + amount := by
  rw [transfer_eq] at hok ⊢
  by_cases h1 : amount ≤ p.balance caller
  · by_cases h2 : p.balance toA + amount < u128Bound
    · simp only [if_pos h1, if_pos h2]
      rw [balance_set_other _ _ _ _ hne, balance_set_self, balance_set_self]
      refine ⟨by omega, rfl, rfl⟩
    · simp [if_pos h1, if_neg h2] at hok
  · simp [if_neg h1] at hok

/-- C1 witness: alice (100) transfers 30 to bob (0); the sum is conserved
and the exact debit and credit are applied. -/
theorem transfer_conservation_witness :
    ("alice" : AccountId) ≠ "bob"
    ∧ (alicePallet.transfer "alice" "bob" 30).2 = .ok ()
    ∧ (alicePallet.transfer "alice" "bob" 30).1.balance "alice"
          + (alicePallet.transfer "alice" "bob" 30).1.balance "bob"
        = alicePallet.balance "alice" + alicePallet.balance "bob" := by
  refine ⟨by decide, rfl, ?_⟩
  exact (transfer_conservation alicePallet "alice" "bob" 30 (by decide) rfl).1

/-- C2: whenever `transfer` fails — with either error — the pallet state is
exactly the pre-call state; in particular the caller's and the recipient's
balances are unchanged, so no partial application ever occurs. -/
theorem transfer_atomic (p : BalancesPallet) (caller toA : AccountId) (amount : Nat)
    (e : BalanceError) (h : (p.transfer caller toA amount).2 = .error e) :
    (p.transfer caller toA amount).1 = p
    ∧ (p.transfer caller toA amount).1.balance caller = p.balance caller
    ∧ (p.transfer caller toA amount).1.balance toA = p.balance toA := by
  rw [transfer_eq] at h ⊢
  by_cases h1 : amount ≤ p.balance caller
  · by_cases h2 : p.balance toA + amount < u128Bound
    · simp [if_pos h1, if_pos h2] at h
    · simp only [if_pos h1, if_neg h2]
      exact ⟨trivial, trivial, trivial⟩
  · simp only [if_neg h1]
    exact ⟨trivial, trivial, trivial⟩

/-- C2 witness: alice (100) attempts to send 200; the call fails with
`InsufficientBalance` and the ledger is exactly the pre-call ledger. -/
theorem transfer_atomic_witness :
    (alicePallet.transfer "alice" "bob" 200).2 = .error .InsufficientBalance
    ∧ (alicePallet.transfer "alice" "bob" 200).1 = alicePallet := by
  exact ⟨rfl, (transfer_atomic alicePallet "alice" "bob" 200 .InsufficientBalance rfl).1⟩

/-- C6: `transfer(caller, to, amount)` fails with `InsufficientBalance`
exactly when the checked subtraction would underflow (amount exceeds the
caller's balance); fails with `BalanceOverflow(to)` exactly when the debit
check succeeds but the checked addition of amount to the recipient's
(pre-call) balance would overflow u128; and returns ok otherwise. -/
theorem transfer_error_conditions (p : BalancesPallet) (caller toA : AccountId)
    (amount : Nat) :
    ((p.transfer caller toA amount).2 = .error .InsufficientBalance
        ↔ p.balance caller < amount)
    ∧ ((p.transfer caller toA amount).2 = .error (.BalanceOverflow toA)
        ↔ amount ≤ p.balance caller ∧ u128Bound ≤ p.balance toA + amount)
    ∧ ((p.transfer caller toA amount).2 = .ok ()
        ↔ amount ≤ p.balance caller ∧ p.balance toA + amount < u128Bound) := by
  rw [transfer_eq]
  by_cases h1 : amount ≤ p.balance caller
  · by_cases h2 : p.balance toA + amount < u128Bound
    · simp [if_pos h1, if_pos h2]
      omega
    · simp [if_pos h1, if_neg h2]
      omega
  · simp [if_neg h1]
    omega

/-- C9: a self-transfer of X with sufficient balance and no overflow
succeeds and leaves the account's balance at `before + X` (the credit
overwrites the debit, since both balances are read before either write);
every other account's entry is untouched, so the total supply grows by X. -/
theorem self_transfer_increases_supply (p : BalancesPallet) (who : AccountId)
    (amount : Nat) (h1 : amount ≤ p.balance who)
    (h2 : p.balance who + amount < u128Bound) :
    (p.transfer who who amount).2 = .ok ()
    ∧ (p.transfer who who amount).1.balance who = p.balance who + amount
    ∧ ∀ w, w ≠ who → (p.transfer who who amount).1.balances w = p.balances w := by
  rw [transfer_eq]
  simp only [if_pos h1, if_pos h2]
  refine ⟨trivial, balance_set_self _ _ _, fun w hw => ?_⟩
  rw [balances_set_other _ _ _ _ hw, balances_set_other _ _ _ _ hw]

/-- C9 witness: alice (100) self-transfers 30; the call succeeds and her
balance becomes 130. -/
theorem self_transfer_increases_supply_witness :
    30 ≤ alicePallet.balance "alice"
    ∧ alicePallet.balance "alice" + 30 < u128Bound
    ∧ (alicePallet.transfer "alice" "alice" 30).1.balance "alice"
        = alicePallet.balance "alice" + 30 := by
  refine ⟨by decide, by decide, ?_⟩
  exact (self_transfer_increases_supply alicePallet "alice" 30 (by decide) (by decide)).2.1

/-- C10: `transfer` never touches the balance entry of any account other
than the caller and the recipient (whether the call succeeds or fails), and
dispatching a balances `Transfer` through the runtime leaves the system
pallet (nonces and block number) and the proof-of-existence pallet
unchanged — its writes are confined to the two named balance entries. -/
theorem transfer_frame (p : BalancesPallet) (caller toA : AccountId) (amount : Nat)
    (w : AccountId) (rt : Runtime) (hw1 : w ≠ caller) (hw2 : w ≠ toA) :
    (p.transfer caller toA amount).1.balances w = p.balances w
    ∧ (rt.dispatch caller (.Balances (.Transfer toA amount))).1.system = rt.system
    ∧ (rt.dispatch caller (.Balances (.Transfer toA amount))).1.proof_of_existence
        = rt.proof_of_existence := by
  refine ⟨?_, ?_, ?_⟩
  · rw [transfer_eq]
    by_cases h1 : amount ≤ p.balance caller
    · by_cases h2 : p.balance toA + amount < u128Bound
      · simp only [if_pos h1, if_pos h2]
        rw [balances_set_other _ _ _ _ hw2, balances_set_other _ _ _ _ hw1]
      · simp [if_pos h1, if_neg h2]
    · simp [if_neg h1]
  · simp only [Runtime.dispatch]
  · simp only [Runtime.dispatch]

/-- C10 witness: alice sends 30 to bob; charlie's entry in the ledger and
the whole system pallet are untouched. -/
theorem transfer_frame_witness :
    (alicePallet.transfer "alice" "bob" 30).1.balances "charlie"
        = alicePallet.balances "charlie"
    ∧ (demoRuntime.dispatch "alice" (.Balances (.Transfer "bob" 30))).1.system
        = demoRuntime.system := by
  have h := transfer_frame alicePallet "alice" "bob" 30 "charlie" demoRuntime
    (by decide) (by decide)
  exact ⟨h.1, h.2.1⟩

theorem dispatch_system_eq (rt : Runtime) (caller : AccountId) (call : RuntimeCall) :
    (rt.dispatch caller call).1.system = rt.system := by
  cases call <;> rfl

theorem applyExtrinsic_block_number (rt : Runtime) (e : Extrinsic) :
    (rt.applyExtrinsic e).system.block_number = rt.system.block_number := by
  simp [Runtime.applyExtrinsic, dispatch_system_eq, SystemPallet.inc_nonce]

theorem applyExtrinsic_nonce (rt : Runtime) (e : Extrinsic) (who : AccountId) :
    ((rt.applyExtrinsic e).system.nonce who).getD 0
      = (rt.system.nonce who).getD 0 + (if e.caller == who then 1 else 0) := by
  simp only [Runtime.applyExtrinsic, dispatch_system_eq, SystemPallet.inc_nonce]
  by_cases h : who = e.caller
  · simp [h]
  · have h2 : ¬e.caller = who := fun hb => h hb.symm
    simp [h, h2]

theorem foldl_applyExtrinsic_nonce (es : List Extrinsic) (rt : Runtime) (who : AccountId) :
    ((es.foldl Runtime.applyExtrinsic rt).system.nonce who).getD 0
      = (rt.system.nonce who).getD 0 + es.countP (fun e => e.caller == who) := by
  induction es generalizing rt with
  | nil => simp
  | cons e es ih =>
    rw [List.foldl_cons, ih, applyExtrinsic_nonce, List.countP_cons]
    by_cases h : e.caller == who
    · simp [h]
      omega
    · simp [h]

theorem foldl_applyExtrinsic_block_number (es : List Extrinsic) (rt : Runtime) :
    (es.foldl Runtime.applyExtrinsic rt).system.block_number = rt.system.block_number := by
  induction es generalizing rt with
  | nil => rfl
  | cons e es ih => rw [List.foldl_cons, ih, applyExtrinsic_block_number]

theorem execute_block_valid (rt : Runtime) (block : Block)
    (h : block.header.block_number = rt.system.block_number + 1) :
    (rt.execute_block block).1
      = block.extrinsics.foldl Runtime.applyExtrinsic
          { rt with system := rt.system.inc_block_number }
    ∧ (rt.execute_block block).2 = .ok () := by
  simp [Runtime.execute_block, SystemPallet.inc_block_number, h]

/-- C3: `execute_block` succeeds exactly when the block's declared number is
the previous block number plus one; on any other declared number it returns
the fatal error with no extrinsic processed: balances, nonces and the claim
registry are all left exactly as before the call, while the internal
block-number counter has nevertheless been incremented before the check. -/
theorem execute_block_sequencing (rt : Runtime) (block : Block) :
    ((rt.execute_block block).2 = .ok ()
        ↔ block.header.block_number = rt.system.block_number + 1)
    ∧ (block.header.block_number ≠ rt.system.block_number + 1 →
        (rt.execute_block block).2
            = .error "block number does not match what is expected"
        ∧ (rt.execute_block block).1.balances = rt.balances
        ∧ (rt.execute_block block).1.system.nonce = rt.system.nonce
        ∧ (rt.execute_block block).1.proof_of_existence = rt.proof_of_existence
        ∧ (rt.execute_block block).1.system.block_number
            = rt.system.block_number + 1) := by
  by_cases h : block.header.block_number = rt.system.block_number + 1
  · have hv := execute_block_valid rt block h
    exact ⟨⟨fun _ => h, fun _ => hv.2⟩, fun hne => absurd h hne⟩
  · have he : rt.execute_block block
        = ({ rt with system := rt.system.inc_block_number },
            .error "block number does not match what is expected") := by
      simp [Runtime.execute_block, SystemPallet.inc_block_number, h]
    rw [he]
    refine ⟨⟨fun hok => absurd hok (by simp), fun hh => absurd hh h⟩,
      fun _ => ⟨rfl, rfl, rfl, rfl, rfl⟩⟩

/-- C3 witness: a fresh runtime (block number 0) receives a block declaring
number 5: execution fails with the fatal message, balances and nonces are
untouched, and the counter has moved to 1. -/
theorem execute_block_sequencing_witness :
    (5 : Nat) ≠ Runtime.new.system.block_number + 1
    ∧ (Runtime.new.execute_block badBlock).2
        = .error "block number does not match what is expected"
    ∧ (Runtime.new.execute_block badBlock).1.balances = Runtime.new.balances
    ∧ (Runtime.new.execute_block badBlock).1.system.nonce = Runtime.new.system.nonce
    ∧ (Runtime.new.execute_block badBlock).1.system.block_number = 1 := by
  have h := (execute_block_sequencing Runtime.new badBlock).2 (by decide)
  exact ⟨by decide, h.1, h.2.1, h.2.2.1, h.2.2.2.2⟩

/-- C5: when the declared block number passes the check, `execute_block`
returns ok whatever the individual dispatch outcomes, and the final state is
the per-extrinsic loop folded over the whole extrinsic list in declared
order — for every split of the list, the suffix is processed from exactly
the state the prefix produced, so a failed dispatch neither aborts the block
nor perturbs the processing of its siblings. -/
theorem execute_block_attempts_all (rt : Runtime) (block : Block)
    (h : block.header.block_number = rt.system.block_number + 1) :
    (rt.execute_block block).2 = .ok ()
    ∧ ∀ xs ys, block.extrinsics = xs ++ ys →
        (rt.execute_block block).1
          = ys.foldl Runtime.applyExtrinsic
              (xs.foldl Runtime.applyExtrinsic
                { rt with system := rt.system.inc_block_number }) := by
  have hv := execute_block_valid rt block h
  refine ⟨hv.2, fun xs ys hsplit => ?_⟩
  rw [hv.1, hsplit, List.foldl_append]

/-- C5 witness: a block whose first transfer fails (insufficient balance)
and whose second succeeds still returns ok, and its state is the two-step
fold — the second extrinsic ran from the state the first left behind. -/
theorem execute_block_attempts_all_witness :
    mixedBlock.header.block_number = demoRuntime.system.block_number + 1
    ∧ (demoRuntime.execute_block mixedBlock).2 = .ok ()
    ∧ (demoRuntime.execute_block mixedBlock).1.balances.balance "bob" = 30 := by
  refine ⟨by decide, (execute_block_attempts_all demoRuntime mixedBlock (by decide)).1, ?_⟩
  have h := (execute_block_attempts_all demoRuntime mixedBlock (by decide)).2
    [⟨"alice", .Balances (.Transfer "bob" 200)⟩]
    [⟨"alice", .Balances (.Transfer "bob" 30)⟩] rfl
  rw [h]
  decide

/-- C4: across any run of well-sequenced blocks, an account's nonce grows by
exactly the number of extrinsics that account originated — the increment
happens unconditionally, once per originated extrinsic, before dispatch, so
failed dispatches count the same as successful ones; starting from the fresh
nonce of zero the final nonce is exactly N. -/
theorem nonce_monotonicity (rt : Runtime) (bs : List Block) (who : AccountId)
    (h : wellSequenced rt.system.block_number bs = true) :
    ((rt.execute_blocks bs).system.nonce who).getD 0
      = (rt.system.nonce who).getD 0 + originatedCount who bs := by
  induction bs generalizing rt with
  | nil => simp [Runtime.execute_blocks, originatedCount]
  | cons b bs ih =>
    rw [wellSequenced, Bool.and_eq_true, beq_iff_eq] at h
    obtain ⟨hb, hrest⟩ := h
    have hv := execute_block_valid rt b hb
    have hbs : Runtime.execute_blocks rt (b :: bs)
        = Runtime.execute_blocks (rt.execute_block b).1 bs := rfl
    have hnum : (rt.execute_block b).1.system.block_number
        = rt.system.block_number + 1 := by
      rw [hv.1, foldl_applyExtrinsic_block_number]
      rfl
    have hnonce : (((rt.execute_block b).1).system.nonce who).getD 0
        = (rt.system.nonce who).getD 0 + originatedInBlock who b := by
      rw [hv.1, foldl_applyExtrinsic_nonce]
      rfl
    rw [hbs, ih _ (by rw [hnum]; exact hrest), hnonce, originatedCount]
    omega

/-- C4 witness: the fresh demo runtime executes the demo's first block, in
which alice originates two transfers; her nonce lands at 0 + 2. -/
theorem nonce_monotonicity_witness :
    wellSequenced demoRuntime.system.block_number [demoBlock1] = true
    ∧ ((demoRuntime.execute_blocks [demoBlock1]).system.nonce "alice").getD 0
        = (demoRuntime.system.nonce "alice").getD 0
            + originatedCount "alice" [demoBlock1] := by
  exact ⟨by decide, nonce_monotonicity demoRuntime [demoBlock1] "alice" (by decide)⟩

/-- C7 counterexample: the system pallet exposes no zero-defaulting
read-only accessor for nonces; the only read of an unknown account's nonce
state — the underlying map lookup, exactly what the source's own test
performs via `system.nonce.get("bob")` — yields `none` on a fresh pallet,
not zero. -/
theorem nonce_accessor_cex :
    SystemPallet.new.nonce "bob" = none
    ∧ SystemPallet.new.nonce "bob" ≠ some 0 := by
  exact ⟨rfl, by decide⟩

/-- C7 (amended): `balance(unknown)` returns zero without creating an entry
(`balance` takes the pallet immutably, so the map cannot change); nonces of
unknown accounts have no stored entry and are *treated* as zero — the first
`inc_nonce` stores one — but the system pallet offers no read-only nonce
accessor, only the block-number accessor. -/
theorem default_zero (p : BalancesPallet) (s : SystemPallet) (who : AccountId)
    (hb : p.balances who = none) (hn : s.nonce who = none) :
    p.balance who = 0 ∧ (s.inc_nonce who).nonce who = some 1 := by
  constructor
  · rw [BalancesPallet.balance, hb]
    rfl
  · simp [SystemPallet.inc_nonce, hn]

/-- C7 witness: on fresh pallets, bob's balance reads zero and his first
nonce increment stores one. -/
theorem default_zero_witness :
    BalancesPallet.new.balances "bob" = none
    ∧ SystemPallet.new.nonce "bob" = none
    ∧ BalancesPallet.new.balance "bob" = 0 := by
  exact ⟨rfl, rfl,
    (default_zero BalancesPallet.new SystemPallet.new "bob" rfl rfl).1⟩

/-- C8: the runtime's `dispatch` matches only on the command's module tag
and forwards to that module's own dispatch with the same caller: the
returned result is exactly the module's result, the module's slot holds
exactly the module's updated state, and every other piece of runtime state
(the system pallet and the other module) is untouched. -/
theorem dispatch_forwards (rt : Runtime) (caller : AccountId) :
    (∀ c, (rt.dispatch caller (RuntimeCall.Balances c)).2
            = (rt.balances.dispatch caller c).2
        ∧ (rt.dispatch caller (RuntimeCall.Balances c)).1.balances
            = (rt.balances.dispatch caller c).1
        ∧ (rt.dispatch caller (RuntimeCall.Balances c)).1.system = rt.system
        ∧ (rt.dispatch caller (RuntimeCall.Balances c)).1.proof_of_existence
            = rt.proof_of_existence)
    ∧ (∀ c, (rt.dispatch caller (RuntimeCall.ProofOfExistence c)).2
            = (rt.proof_of_existence.dispatch caller c).2
        ∧ (rt.dispatch caller (RuntimeCall.ProofOfExistence c)).1.proof_of_existence
            = (rt.proof_of_existence.dispatch caller c).1
        ∧ (rt.dispatch caller (RuntimeCall.ProofOfExistence c)).1.system = rt.system
        ∧ (rt.dispatch caller (RuntimeCall.ProofOfExistence c)).1.balances
            = rt.balances) := by
  exact ⟨fun c => ⟨rfl, rfl, rfl, rfl⟩, fun c => ⟨rfl, rfl, rfl, rfl⟩⟩

end StateMachine
